import Mathlib

/-!
# klab_web — verification of the spec against the repository

The repository ships a browser popup helper in two generations (a legacy
`commonPopup` in an unnamed script and a modernized `KLab` module in
`src/improved/javascript.js`) together with a README describing a backend
platform.  The telemetry/command core of the spec (Link Manager, Telemetry
Decoder, State Aggregator, Command Dispatcher, Subscription Hub) is
documented but its implementation is not present under `src/`; those
components are modelled here directly from the spec's contracts, each such
definition marked `Modelled from the spec:`.  The popup helper is embedded
from the JavaScript source.
-/

namespace KlabWeb

/-! ## Telemetry data model (State Aggregator, §3, §4.3) -/

/-- Modelled from the spec: a `TelemetryField` is a named measurement with
value, unit tag, timestamp of last update and a source sequence number
(spec §3); the concrete implementation is absent from `src/`. -/
structure TelemetryField where
  name : String
  value : Int
  unit : String
  timestamp : Nat
  seq : Nat
deriving Repr, DecidableEq

/-- Modelled from the spec: the `VehicleSnapshot` maps field names to
`TelemetryField`s and carries a monotonically increasing snapshot version
(spec §3); the field map is kept as an association list. -/
structure VehicleSnapshot where
  fields : List (String × TelemetryField)
  version : Nat
deriving Repr, DecidableEq

/-- Look a field up by name in the snapshot's association list. -/
def lookupField : List (String × TelemetryField) → String → Option TelemetryField
  | [], _ => none
  | (k, v) :: rest, n => if k = n then some v else lookupField rest n

/-- Store a field under a name, replacing an existing binding for that name
or appending a fresh one. -/
def setField : List (String × TelemetryField) → String → TelemetryField → List (String × TelemetryField)
  | [], n, f => [(n, f)]
  | (k, v) :: rest, n, f => if k = n then (n, f) :: rest else (k, v) :: setField rest n f

/-- Modelled from the spec: merging one decoded field into the field map by
name, updating value/unit/timestamp (spec §4.3).  The spec's invariant that
"a field's timestamp never regresses" (spec §3) forces the merge to discard
an update carrying a timestamp older than the stored one. -/
def mergeField (m : List (String × TelemetryField)) (f : TelemetryField) : List (String × TelemetryField) :=
  match lookupField m f.name with
  | some old => if f.timestamp < old.timestamp then m else setField m f.name f
  | none => setField m f.name f

namespace Aggregator

/-- Modelled from the spec: `apply(fields)` merges each field into the
current snapshot by name and increments the snapshot version exactly once
per call, never per field (spec §4.3); per spec §8 the version counts the
`apply` calls that contained at least one field, so a call with an empty
batch leaves the snapshot unchanged. -/
def apply (snap : VehicleSnapshot) (fs : List TelemetryField) : VehicleSnapshot :=
  if fs.isEmpty then snap
  else { fields := fs.foldl mergeField snap.fields, version := snap.version + 1 }

/-- Apply a sequence of decoded field batches in order. -/
def applyAll (snap : VehicleSnapshot) (batches : List (List TelemetryField)) : VehicleSnapshot :=
  batches.foldl apply snap

end Aggregator

theorem apply_version_nonempty (snap : VehicleSnapshot) (fs : List TelemetryField)
    (h : fs ≠ []) : (Aggregator.apply snap fs).version = snap.version + 1 := by
  unfold Aggregator.apply
  simp [List.isEmpty_iff, h]

theorem apply_version_empty (snap : VehicleSnapshot) :
    (Aggregator.apply snap []).version = snap.version := by
  unfold Aggregator.apply
  simp

theorem applyAll_version (snap : VehicleSnapshot) (batches : List (List TelemetryField)) :
    (Aggregator.applyAll snap batches).version
      = snap.version + batches.countP (fun b => !b.isEmpty) := by
  induction batches generalizing snap with
  | nil => simp [Aggregator.applyAll, List.countP_nil]
  | cons b rest ih =>
    unfold Aggregator.applyAll at *
    rcases b with _ | ⟨f, fs⟩
    · simp only [List.foldl_cons, List.countP_cons]
      rw [ih]
      simp [Aggregator.apply]
    · simp only [List.foldl_cons, List.countP_cons]
      rw [ih]
      simp [Aggregator.apply, Nat.add_comm, Nat.add_assoc, Nat.add_left_comm]

theorem lookupField_setField_self (m : List (String × TelemetryField)) (n : String)
    (f : TelemetryField) : lookupField (setField m n f) n = some f := by
  induction m with
  | nil => simp [setField, lookupField]
  | cons p rest ih =>
    rcases p with ⟨k, v⟩
    by_cases hk : k = n
    · simp [setField, lookupField, hk]
    · simp [setField, lookupField, hk, ih]

theorem lookupField_setField_ne (m : List (String × TelemetryField)) (n k : String)
    (f : TelemetryField) (h : k ≠ n) : lookupField (setField m n f) k = lookupField m k := by
  induction m with
  | nil => simp [setField, lookupField, Ne.symm h]
  | cons p rest ih =>
    rcases p with ⟨k', v⟩
    by_cases hk : k' = n
    · subst hk
      simp [setField, lookupField, h, Ne.symm h]
    · simp only [setField, if_neg hk]
      by_cases hk2 : k' = k
      · simp [lookupField, hk2]
      · simp [lookupField, hk2, ih]

theorem mergeField_timestamp_mono (m : List (String × TelemetryField)) (f : TelemetryField)
    (n : String) (old : TelemetryField) (h : lookupField m n = some old) :
    ∃ new, lookupField (mergeField m f) n = some new ∧ old.timestamp ≤ new.timestamp := by
  by_cases hn : n = f.name
  · subst hn
    unfold mergeField
    rw [h]
    by_cases hts : f.timestamp < old.timestamp
    · exact ⟨old, by simp [hts, h], le_refl _⟩
    · refine ⟨f, ?_, Nat.le_of_not_lt hts⟩
      simp [hts, lookupField_setField_self]
  · unfold mergeField
    match hl : lookupField m f.name with
    | some old' =>
      by_cases hts : f.timestamp < old'.timestamp
      · exact ⟨old, by simp [hts, h], le_refl _⟩
      · refine ⟨old, ?_, le_refl _⟩
        simp [hts, lookupField_setField_ne m f.name n f hn, h]
    | none =>
      exact ⟨old, by rw [lookupField_setField_ne m f.name n f hn, h], le_refl _⟩

theorem foldl_mergeField_timestamp_mono (fs : List TelemetryField)
    (m : List (String × TelemetryField)) (n : String) (old : TelemetryField)
    (h : lookupField m n = some old) :
    ∃ new, lookupField (fs.foldl mergeField m) n = some new ∧ old.timestamp ≤ new.timestamp := by
  induction fs generalizing m old with
  | nil => exact ⟨old, h, le_refl _⟩
  | cons f rest ih =>
    obtain ⟨mid, hmid, hle⟩ := mergeField_timestamp_mono m f n old h
    obtain ⟨new, hnew, hle2⟩ := ih (mergeField m f) mid hmid
    exact ⟨new, hnew, le_trans hle hle2⟩

theorem apply_timestamp_mono (snap : VehicleSnapshot) (fs : List TelemetryField)
    (n : String) (old : TelemetryField) (h : lookupField snap.fields n = some old) :
    ∃ new, lookupField (Aggregator.apply snap fs).fields n = some new
      ∧ old.timestamp ≤ new.timestamp := by
  unfold Aggregator.apply
  by_cases he : fs.isEmpty
  · exact ⟨old, by simp [he, h], le_refl _⟩
  · simpa [he] using foldl_mergeField_timestamp_mono fs snap.fields n old h

theorem applyAll_timestamp_mono (batches : List (List TelemetryField))
    (snap : VehicleSnapshot) (n : String) (old : TelemetryField)
    (h : lookupField snap.fields n = some old) :
    ∃ new, lookupField (Aggregator.applyAll snap batches).fields n = some new
      ∧ old.timestamp ≤ new.timestamp := by
  induction batches generalizing snap old with
  | nil => exact ⟨old, h, le_refl _⟩
  | cons b rest ih =>
    obtain ⟨mid, hmid, hle⟩ := apply_timestamp_mono snap b n old h
    obtain ⟨new, hnew, hle2⟩ := ih (Aggregator.apply snap b) mid hmid
    exact ⟨new, hnew, le_trans hle hle2⟩

/-! ## Telemetry Decoder (§4.2) -/

/-- Modelled from the spec: one raw inbound protocol item carrying a message
tag, value, timestamp and sequence number.  The concrete binary framing and
field catalog are an open question of the spec (§9); the tag stands for the
message type. -/
structure RawItem where
  tag : Nat
  value : Int
  timestamp : Nat
  seq : Nat
deriving Repr, DecidableEq

/-- Modelled from the spec: the Decoder's field catalog mapping known
message tags to a field name and SI unit tag (§4.2); unknown tags are not
in the catalog. -/
def fieldCatalog : List (Nat × String × String) :=
  [(1, "depth", "m"), (2, "battery_voltage", "V"), (3, "heading", "deg"),
   (4, "orientation", "deg")]

/-- Look a tag up in the field catalog. -/
def catalogLookup : List (Nat × String × String) → Nat → Option (String × String)
  | [], _ => none
  | (t, n, u) :: rest, tag => if t = tag then some (n, u) else catalogLookup rest tag

/-- Modelled from the spec: decoding one raw item to a typed, named field;
an unknown or malformed item decodes to `none` and is dropped, never
raised (§4.2). -/
def decodeItem (it : RawItem) : Option TelemetryField :=
  match catalogLookup fieldCatalog it.tag with
  | some (n, u) =>
    some { name := n, value := it.value, unit := u, timestamp := it.timestamp, seq := it.seq }
  | none => none

namespace Decoder

/-- Modelled from the spec: `decode(buffer)` walks the items of the buffer,
collects every well-formed field and counts every dropped item; it is total
and pure, so a corrupt item never prevents the rest of the buffer from
being decoded (§4.2).  Returns the decoded fields and the number of items
dropped from this buffer. -/
def decode : List RawItem → List TelemetryField × Nat
  | [] => ([], 0)
  | it :: rest =>
    let r := decode rest
    match decodeItem it with
    | some f => (f :: r.1, r.2)
    | none => (r.1, r.2 + 1)

end Decoder

theorem decode_fields (buf : List RawItem) :
    (Decoder.decode buf).1 = buf.filterMap decodeItem := by
  induction buf with
  | nil => rfl
  | cons it rest ih =>
    unfold Decoder.decode
    match h : decodeItem it with
    | some f => simp [h, ih]
    | none => simp [h, ih]

theorem decode_dropCount (buf : List RawItem) :
    (Decoder.decode buf).2 = buf.countP (fun it => (decodeItem it).isNone) := by
  induction buf with
  | nil => rfl
  | cons it rest ih =>
    unfold Decoder.decode
    match h : decodeItem it with
    | some f => simp [h, ih, List.countP_cons]
    | none => simp [h, ih, List.countP_cons]

/-! ## Command Dispatcher (§4.4) -/

/-- Modelled from the spec: the status of a `CommandRequest` (§3). -/
inductive CommandStatus where
  | Pending
  | Sent
  | Acked (result : Int)
  | TimedOut
  | Failed
deriving Repr, DecidableEq

/-- Acked, TimedOut and Failed are the terminal states (spec §3). -/
def CommandStatus.isTerminal : CommandStatus → Bool
  | .Acked _ => true
  | .TimedOut => true
  | .Failed => true
  | _ => false

/-- Modelled from the spec: the events that can reach a command request:
a successful handoff to the Link Manager, a `LinkUnavailable` rejection,
a correlated acknowledgment carrying a result code, and timeout expiry
(§4.4). -/
inductive CommandEvent where
  | sendOk
  | sendUnavailable
  | ack (result : Int)
  | ackTimeout
deriving Repr, DecidableEq

/-- Modelled from the spec: the status transition relation of §4.4.
Pending becomes Sent on a successful send and Failed on `LinkUnavailable`;
Sent becomes Acked on a correlated ack and TimedOut on timeout expiry;
terminal states have no outgoing transitions, so late or duplicate events
are ignored. -/
def commandStep : CommandStatus → CommandEvent → CommandStatus
  | .Pending, .sendOk => .Sent
  | .Pending, .sendUnavailable => .Failed
  | .Sent, .ack r => .Acked r
  | .Sent, .ackTimeout => .TimedOut
  | s, _ => s

/-- Run a sequence of events against a command request's status. -/
def commandRun (s : CommandStatus) (evs : List CommandEvent) : CommandStatus :=
  evs.foldl commandStep s

theorem commandStep_terminal (s : CommandStatus) (e : CommandEvent)
    (h : s.isTerminal = true) : commandStep s e = s := by
  cases s <;> cases e <;> first
    | rfl
    | exact absurd h (by simp [CommandStatus.isTerminal])

theorem commandRun_terminal (s : CommandStatus) (evs : List CommandEvent)
    (h : s.isTerminal = true) : commandRun s evs = s := by
  induction evs with
  | nil => rfl
  | cons e rest ih =>
    unfold commandRun at *
    rw [List.foldl_cons, commandStep_terminal s e h, ih]

/-! ## Link Manager (§4.1) and the Dispatcher's send path (§4.4) -/

/-- Modelled from the spec: the `VehicleLink` connection states (§3). -/
inductive LinkState where
  | Disconnected
  | Connecting
  | Connected
  | Degraded
deriving Repr, DecidableEq

/-- Modelled from the spec: the connectivity error taxonomy (§7). -/
inductive LinkError where
  | LinkUnreachable
  | LinkUnavailable
deriving Repr, DecidableEq

/-- Modelled from the spec: the Link Manager's owned state — the link's
connection state and the log of command buffers actually transmitted to
the vehicle (§4.1).  There is no pending-command queue: `send` never
queues. -/
structure LinkManager where
  link : LinkState
  transmitted : List (List Nat)
deriving Repr, DecidableEq

/-- Modelled from the spec: `send(commandBytes)` is non-blocking; if no
link is currently Connected it fails immediately with `LinkUnavailable`
rather than queuing (§4.1).  On a Connected link the buffer is handed to
the device, recorded here in `transmitted`. -/
def LinkManager.send (m : LinkManager) (cmd : List Nat) : Except LinkError Unit × LinkManager :=
  if m.link = LinkState.Connected then
    (Except.ok (), { m with transmitted := cmd :: m.transmitted })
  else
    (Except.error LinkError.LinkUnavailable, m)

/-- Modelled from the spec: liveness and reconnect events of the Link
Manager (§4.1): a missed liveness window degrades the link, a successful
reconnect returns it to Connected, a failed attempt leaves it Connecting,
shutdown disconnects.  None of these transmit any command. -/
inductive LinkEvent where
  | heartbeatLost
  | reconnected
  | connectFailed
  | shutdown
deriving Repr, DecidableEq

/-- Modelled from the spec: effect of one link lifecycle event (§4.1). -/
def linkStep (m : LinkManager) (e : LinkEvent) : LinkManager :=
  match e with
  | .heartbeatLost => { m with link := LinkState.Degraded }
  | .reconnected => { m with link := LinkState.Connected }
  | .connectFailed => { m with link := LinkState.Connecting }
  | .shutdown => { m with link := LinkState.Disconnected }

/-- Run a sequence of link lifecycle events. -/
def linkRun (m : LinkManager) (evs : List LinkEvent) : LinkManager :=
  evs.foldl linkStep m

theorem linkStep_transmitted (m : LinkManager) (e : LinkEvent) :
    (linkStep m e).transmitted = m.transmitted := by
  cases e <;> rfl

theorem linkRun_transmitted (evs : List LinkEvent) (m : LinkManager) :
    (linkRun m evs).transmitted = m.transmitted := by
  induction evs generalizing m with
  | nil => rfl
  | cons e rest ih =>
    unfold linkRun at *
    rw [List.foldl_cons, ih, linkStep_transmitted]

/-- Modelled from the spec: the Dispatcher hands a serialized request to
the Link Manager; a `LinkUnavailable` rejection marks the request Failed
immediately and a successful handoff marks it Sent (§4.4). -/
def dispatchSend (m : LinkManager) (s : CommandStatus) (cmd : List Nat) :
    CommandStatus × LinkManager :=
  match LinkManager.send m cmd with
  | (Except.ok _, m') => (commandStep s CommandEvent.sendOk, m')
  | (Except.error _, m') => (commandStep s CommandEvent.sendUnavailable, m')

/-! ## Subscription Hub (§4.5) -/

/-- Modelled from the spec: a `Subscriber` of the Hub, with the last
snapshot version successfully delivered, the bounded queue of undelivered
snapshot versions and its delivery-paused flag (§3, §4.5). -/
structure Subscriber where
  lastDelivered : Nat
  pendingQueue : List Nat
  paused : Bool
deriving Repr, DecidableEq

/-- Modelled from the spec: the per-subscriber queue keeps only the newest
queued snapshot, since snapshots are full state, not deltas (§4.5). -/
def hubQueueDepth : Nat := 1

/-- Modelled from the spec: on every Aggregator version bump the Hub
enqueues the latest snapshot for the subscriber; the bounded queue
overwrites the oldest pending entries so that older undelivered snapshots
are superseded, never accumulated as a backlog (§4.5). -/
def enqueueSnapshot (sub : Subscriber) (v : Nat) : Subscriber :=
  let q := sub.pendingQueue ++ [v]
  { sub with pendingQueue := q.drop (q.length - hubQueueDepth) }

/-- Apply a sequence of version bumps to a subscriber. -/
def bumpAll (sub : Subscriber) (vs : List Nat) : Subscriber :=
  vs.foldl enqueueSnapshot sub

/-- Modelled from the spec: on resumption the subscriber's delivery task
drains its queue, delivering each queued snapshot in order (§4.5, §5). -/
def resumeDeliver (sub : Subscriber) : List Nat × Subscriber :=
  (sub.pendingQueue,
   { sub with
      pendingQueue := [],
      lastDelivered := sub.pendingQueue.getLastD sub.lastDelivered,
      paused := false })

theorem enqueueSnapshot_pendingQueue (sub : Subscriber) (v : Nat) :
    (enqueueSnapshot sub v).pendingQueue = [v] := by
  unfold enqueueSnapshot hubQueueDepth
  have h : (sub.pendingQueue ++ [v]).length - 1 = sub.pendingQueue.length := by
    simp
  simp only [h]
  exact List.drop_left sub.pendingQueue [v]

/-- A sample concrete field used by witness theorems. -/
def sampleField : TelemetryField :=
  { name := "depth", value := 12, unit := "m", timestamp := 100, seq := 1 }

/-- A second sample concrete field used by witness theorems. -/
def sampleField2 : TelemetryField :=
  { name := "battery_voltage", value := 15, unit := "V", timestamp := 101, seq := 2 }

/-- C1: across any sequence of decoded field batches applied through
`Aggregator.apply`, the snapshot version equals the starting version plus
the number of `apply` calls that carried at least one field, and each such
call increments the version exactly once (hence strictly increases it),
never once per field. -/
theorem spec_C1_apply_version (snap : VehicleSnapshot) (batches : List (List TelemetryField)) :
    (Aggregator.applyAll snap batches).version
      = snap.version + batches.countP (fun b => !b.isEmpty)
    ∧ ∀ fs : List TelemetryField, fs ≠ [] →
        (Aggregator.apply snap fs).version = snap.version + 1
        ∧ snap.version < (Aggregator.apply snap fs).version := by
  refine ⟨applyAll_version snap batches, fun fs hfs => ?_⟩
  have h := apply_version_nonempty snap fs hfs
  exact ⟨h, by omega⟩

/-- Witness for C1 at a concrete snapshot and batch sequence. -/
theorem spec_C1_apply_version_witness :
    (Aggregator.applyAll ⟨[], 0⟩ [[sampleField], [], [sampleField, sampleField2]]).version
      = (0 : Nat) + List.countP (fun b => !b.isEmpty)
          [[sampleField], [], [sampleField, sampleField2]]
    ∧ (Aggregator.apply ⟨[], 0⟩ [sampleField]).version = 0 + 1
    ∧ (0 : Nat) < (Aggregator.apply ⟨[], 0⟩ [sampleField]).version := by
  have h := spec_C1_apply_version ⟨[], 0⟩ [[sampleField], [], [sampleField, sampleField2]]
  have h2 := h.2 [sampleField] (by simp)
  exact ⟨h.1, h2.1, h2.2⟩

/-- C6: for every field name, the timestamp stored for that field is
monotonically non-decreasing across any sequence of `apply` calls: whenever
the name is bound before, it stays bound after and its stored timestamp
never regresses. -/
theorem spec_C6_timestamp_monotone (snap : VehicleSnapshot)
    (batches : List (List TelemetryField)) (n : String) (old : TelemetryField)
    (h : lookupField snap.fields n = some old) :
    ∃ new, lookupField (Aggregator.applyAll snap batches).fields n = some new
      ∧ old.timestamp ≤ new.timestamp :=
  applyAll_timestamp_mono batches snap n old h

/-- Witness for C6 at a concrete snapshot holding one field and a batch
carrying an update with an older timestamp. -/
theorem spec_C6_timestamp_monotone_witness :
    ∃ new, lookupField
        (Aggregator.applyAll ⟨[("depth", sampleField)], 1⟩
          [[{ sampleField with timestamp := 50 }]]).fields "depth" = some new
      ∧ sampleField.timestamp ≤ new.timestamp :=
  spec_C6_timestamp_monotone ⟨[("depth", sampleField)], 1⟩
    [[{ sampleField with timestamp := 50 }]] "depth" sampleField (by rfl)

/-- A raw item with a known tag, used by witness theorems. -/
def rawGood : RawItem := { tag := 1, value := 5, timestamp := 10, seq := 1 }

/-- A raw item with an unknown tag (malformed), used by witness theorems. -/
def rawBad : RawItem := { tag := 99, value := 0, timestamp := 0, seq := 0 }

/-- The field `rawGood` decodes to. -/
def goodField : TelemetryField := { name := "depth", value := 5, unit := "m", timestamp := 10, seq := 1 }

/-- C2: `decode` is total — it returns the well-formed fields of the buffer
and counts the dropped items, for every buffer; in particular a buffer of
one well-formed and one malformed item (in either order) yields exactly the
well-formed field with a drop count of one, so a corrupt item never
prevents the other items of the same buffer from being decoded. -/
theorem spec_C2_decode_total (buf : List RawItem) (good bad : RawItem) (f : TelemetryField)
    (hg : decodeItem good = some f) (hb : decodeItem bad = none) :
    (Decoder.decode buf).1 = buf.filterMap decodeItem
    ∧ (Decoder.decode buf).2 = buf.countP (fun it => (decodeItem it).isNone)
    ∧ Decoder.decode [good, bad] = ([f], 1)
    ∧ Decoder.decode [bad, good] = ([f], 1) := by
  refine ⟨decode_fields buf, decode_dropCount buf, ?_, ?_⟩
  · simp [Decoder.decode, hg, hb]
  · simp [Decoder.decode, hg, hb]

/-- Witness for C2 at a concrete buffer holding one known-tag item and one
unknown-tag item. -/
theorem spec_C2_decode_total_witness :
    (Decoder.decode [rawGood, rawBad]).1 = List.filterMap decodeItem [rawGood, rawBad]
    ∧ (Decoder.decode [rawGood, rawBad]).2
        = List.countP (fun it => (decodeItem it).isNone) [rawGood, rawBad]
    ∧ Decoder.decode [rawGood, rawBad] = ([goodField], 1)
    ∧ Decoder.decode [rawBad, rawGood] = ([goodField], 1) :=
  spec_C2_decode_total [rawGood, rawBad] rawGood rawBad goodField (by rfl) (by rfl)

/-- C3: once a command request's status is terminal (Acked, TimedOut or
Failed), no sequence of subsequent events changes it; in particular an
acknowledgment arriving after the request became TimedOut leaves the
status TimedOut. -/
theorem spec_C3_terminal_immutable (s : CommandStatus) (h : s.isTerminal = true) :
    (∀ evs : List CommandEvent, commandRun s evs = s)
    ∧ ∀ r : Int,
        commandStep CommandStatus.TimedOut (CommandEvent.ack r) = CommandStatus.TimedOut :=
  ⟨fun evs => commandRun_terminal s evs h, fun _ => rfl⟩

/-- Witness for C3: a TimedOut request hit by a late ack followed by more
events stays TimedOut. -/
theorem spec_C3_terminal_immutable_witness :
    commandRun CommandStatus.TimedOut [CommandEvent.ack 7, CommandEvent.sendOk]
      = CommandStatus.TimedOut
    ∧ commandStep CommandStatus.TimedOut (CommandEvent.ack 7) = CommandStatus.TimedOut :=
  ⟨(spec_C3_terminal_immutable CommandStatus.TimedOut (by rfl)).1
      [CommandEvent.ack 7, CommandEvent.sendOk],
   (spec_C3_terminal_immutable CommandStatus.TimedOut (by rfl)).2 7⟩

/-- C4: every enqueue leaves at most one undelivered snapshot pending in
the subscriber's bounded queue, and after any non-empty run of version
bumps while delivery is paused, only the latest version is pending and
resumption delivers exactly that one version, not one message per bump. -/
theorem spec_C4_overwrite_oldest (sub : Subscriber) :
    (∀ v : Nat, (enqueueSnapshot sub v).pendingQueue.length ≤ 1)
    ∧ ∀ (vs : List Nat) (v : Nat),
        (bumpAll sub (vs ++ [v])).pendingQueue = [v]
        ∧ (resumeDeliver (bumpAll sub (vs ++ [v]))).1 = [v] := by
  constructor
  · intro v
    rw [enqueueSnapshot_pendingQueue]
    simp
  · intro vs v
    have h : bumpAll sub (vs ++ [v]) = enqueueSnapshot (bumpAll sub vs) v := by
      unfold bumpAll
      simp [List.foldl_append]
    refine ⟨by rw [h, enqueueSnapshot_pendingQueue], ?_⟩
    rw [h]
    simp [resumeDeliver, enqueueSnapshot_pendingQueue]

/-- C5: when no link is Connected, `send` fails immediately with
`LinkUnavailable` and leaves the Link Manager unchanged (nothing queued),
the Dispatcher marks the Pending request Failed, the command is never
transmitted across any later sequence of link events (reconnects
included), and the Failed status never changes again (no retry). -/
theorem spec_C5_unavailable_no_queue (m : LinkManager) (cmd : List Nat)
    (h : m.link ≠ LinkState.Connected) (h2 : cmd ∉ m.transmitted) :
    (LinkManager.send m cmd).1 = Except.error LinkError.LinkUnavailable
    ∧ (LinkManager.send m cmd).2 = m
    ∧ (dispatchSend m CommandStatus.Pending cmd).1 = CommandStatus.Failed
    ∧ (∀ evs : List LinkEvent,
        cmd ∉ (linkRun (dispatchSend m CommandStatus.Pending cmd).2 evs).transmitted)
    ∧ ∀ evs2 : List CommandEvent, commandRun CommandStatus.Failed evs2 = CommandStatus.Failed := by
  have hs : LinkManager.send m cmd = (Except.error LinkError.LinkUnavailable, m) := by
    unfold LinkManager.send
    rw [if_neg h]
  have hd : dispatchSend m CommandStatus.Pending cmd = (CommandStatus.Failed, m) := by
    unfold dispatchSend
    rw [hs]
    rfl
  refine ⟨by rw [hs], by rw [hs], by rw [hd], fun evs => ?_, fun evs2 => ?_⟩
  · rw [hd]
    simpa [linkRun_transmitted] using h2
  · exact commandRun_terminal CommandStatus.Failed evs2 (by rfl)

/-- A Link Manager with no connected link, used by witness theorems. -/
def offlineManager : LinkManager := { link := LinkState.Disconnected, transmitted := [] }

/-- Witness for C5: a concrete disconnected manager rejects a concrete
command; the command stays untransmitted across a later reconnect and the
Failed status survives a later send event. -/
theorem spec_C5_unavailable_no_queue_witness :
    (LinkManager.send offlineManager [1, 2, 3]).1 = Except.error LinkError.LinkUnavailable
    ∧ (dispatchSend offlineManager CommandStatus.Pending [1, 2, 3]).1 = CommandStatus.Failed
    ∧ [1, 2, 3] ∉ (linkRun (dispatchSend offlineManager CommandStatus.Pending [1, 2, 3]).2
        [LinkEvent.reconnected]).transmitted
    ∧ commandRun CommandStatus.Failed [CommandEvent.sendOk] = CommandStatus.Failed := by
  have h := spec_C5_unavailable_no_queue offlineManager [1, 2, 3] (by decide) (by decide)
  exact ⟨h.1, h.2.2.1, h.2.2.2.1 [LinkEvent.reconnected], h.2.2.2.2 [CommandEvent.sendOk]⟩

/-! ## Browser popup helper — embedded from the JavaScript sources

`src/unnamed/part_000` is the legacy script whose `commonPopup` assigns an
implicitly global `popupWindow`; `src/improved/javascript.js` is the
modernized `KLab` module.  The host browser API is a parameter of the
embedding: `windowOpen` models `window.open(url, name, options)` and
`urlCtor` models `new URL(url, window.location.origin)`, returning `none`
exactly when the constructor throws. -/

/-- A browser `Window` object; `closed` is `none` when the `closed`
property is `undefined` on the host object. -/
structure Window where
  closed : Option Bool
deriving Repr, DecidableEq

/-- The arguments of one `window.open(url, name, options)` call. -/
structure OpenArgs where
  url : String
  name : String
  options : String
deriving Repr, DecidableEq

/-- The module-level environment of the legacy script: the implicitly
global, undeclared `popupWindow` handle assigned by the legacy
`commonPopup` (src/unnamed/part_000, line 25). -/
structure BrowserGlobals where
  popupWindow : Option Window
deriving Repr, DecidableEq

/-- JavaScript falsiness of a string-or-undefined argument: `undefined`
(here `none`) and the empty string are falsy. -/
def jsFalsyStr : Option String → Bool
  | none => true
  | some s => s = ""

/-- JavaScript falsiness of a number-or-undefined argument: `undefined`
(here `none`) and `0` are falsy. -/
def jsFalsyInt : Option Int → Bool
  | none => true
  | some n => n = 0

/-- JavaScript stringification of a number-or-undefined value, as produced
by the legacy script's string concatenation: `undefined` prints as the
string "undefined". -/
def jsNumString : Option Int → String
  | none => "undefined"
  | some n => toString n

namespace Legacy

/-- src/unnamed/part_000 line 10: the options appended by the switch's
only live case (`toolsInd === 1`). -/
def legacyRestrictedOptions : String :=
  ",menubar=no, toolbar=no, status=no, resizable=no, scrollbars=no, addressbars=no"

/-- src/unnamed/part_000 line 4: the base size options. -/
def legacyBaseOptions (width height : Option Int) : String :=
  "width=" ++ jsNumString width ++ ",height=" ++ jsNumString height

/-- src/unnamed/part_000 lines 4-18: the full options string. -/
def legacyOptions (width height : Option Int) (toolsInd : Int) : String :=
  if toolsInd = 1 then legacyBaseOptions width height ++ legacyRestrictedOptions
  else legacyBaseOptions width height

/-- src/unnamed/part_000 lines 20-23: `if (!name) name = "";`. -/
def legacyName (name : Option String) : String :=
  if jsFalsyStr name then "" else name.getD ""

/-- The arguments the legacy `commonPopup` passes to `window.open`
(src/unnamed/part_000 line 25); an `undefined` url stringifies to
"undefined". -/
def legacyArgsOf (url : Option String) (width height : Option Int) (toolsInd : Int)
    (name : Option String) : OpenArgs :=
  { url := url.getD "undefined",
    name := legacyName name,
    options := legacyOptions width height toolsInd }

/-- src/unnamed/part_000 `commonPopup`: builds the options string, defaults
a falsy name to the empty string, calls `window.open` and assigns the
result to the module-level `popupWindow` (line 25), focusing the popup when
non-null (no modelled effect).  Returns the module environment after the
call together with the arguments passed to `window.open`.  The previous
environment `g` is overwritten, not consulted. -/
def commonPopup (windowOpen : OpenArgs → Option Window) (_g : BrowserGlobals)
    (url : Option String) (width height : Option Int) (toolsInd : Int)
    (name : Option String) : BrowserGlobals × OpenArgs :=
  ({ popupWindow := windowOpen (legacyArgsOf url width height toolsInd name) },
   legacyArgsOf url width height toolsInd name)

end Legacy

namespace KLab

/-- The host `URL` object produced by a successful `new URL(...)`. -/
structure URLRec where
  href : String
deriving Repr, DecidableEq

/-- javascript.js lines 95-102: `isValidUrl` wraps the host URL
constructor in try/catch — `true` when construction succeeds, `false` when
it throws (modelled by `urlCtor` returning `none`). -/
def isValidUrl (urlCtor : String → Option URLRec) (url : String) : Bool :=
  match urlCtor url with
  | some _ => true
  | none => false

/-- javascript.js line 53: the template `width=...,height=...`. -/
def modernBaseOptions (width height : Int) : String :=
  "width=" ++ toString width ++ ",height=" ++ toString height

/-- javascript.js line 56: the options appended when `showTools` is
falsy. -/
def modernRestrictedOptions : String :=
  ",menubar=no,toolbar=no,status=no,resizable=no,scrollbars=no,location=no"

/-- javascript.js lines 52-57: the full options string. -/
def modernOptions (width height : Int) (showTools : Bool) : String :=
  if !showTools then modernBaseOptions width height ++ modernRestrictedOptions
  else modernBaseOptions width height

/-- javascript.js line 86: `name || ''`. -/
def jsOrEmpty (name : Option String) : String :=
  if jsFalsyStr name then "" else name.getD ""

/-- The config object destructured by `openPopup` (javascript.js lines
32-38); `none` models an absent (undefined) property, so the destructuring
defaults `showTools = false` and `name = ''` apply exactly to `none`. -/
structure PopupConfig where
  url : Option String := none
  width : Option Int := none
  height : Option Int := none
  showTools : Option Bool := none
  name : Option String := none
deriving Repr, DecidableEq

/-- The arguments `openPopup` passes to `window.open` (javascript.js lines
52-60): the destructured url and name (with their defaults) and the built
options string. -/
def openArgsOf (config : PopupConfig) : OpenArgs :=
  { url := config.url.getD "",
    name := config.name.getD "",
    options := modernOptions (config.width.getD 0) (config.height.getD 0)
      (config.showTools.getD false) }

/-- javascript.js lines 31-72, `openPopup`: validates that url, width and
height are truthy, validates the URL through `isValidUrl`, builds the
options string, calls `window.open` exactly once (the single call site,
its arguments recorded as `openArgsOf config`), treats a null, closed or
`closed`-undefined popup as blocked (returning null), and otherwise
focuses the popup and returns it.  The first component is the function's
return value; the second records the arguments of the `window.open` call
when one was made. -/
def openPopup (urlCtor : String → Option URLRec) (windowOpen : OpenArgs → Option Window)
    (config : PopupConfig) : Option Window × Option OpenArgs :=
  if jsFalsyStr config.url || jsFalsyInt config.width || jsFalsyInt config.height then
    (none, none)
  else if !isValidUrl urlCtor (config.url.getD "") then
    (none, none)
  else
    match windowOpen (openArgsOf config) with
    | none => (none, some (openArgsOf config))
    | some w =>
      match w.closed with
      | some false => (some w, some (openArgsOf config))
      | _ => (none, some (openArgsOf config))

/-- javascript.js lines 78-88: the deprecated `commonPopup` wrapper,
delegating to `openPopup` with `showTools: toolsInd !== 1` and
`name: name || ''`. -/
def commonPopup (urlCtor : String → Option URLRec) (windowOpen : OpenArgs → Option Window)
    (url : Option String) (width height : Option Int) (toolsInd : Int)
    (name : Option String) : Option Window × Option OpenArgs :=
  openPopup urlCtor windowOpen
    { url := url,
      width := width,
      height := height,
      showTools := some (toolsInd ≠ 1),
      name := some (jsOrEmpty name) }

end KLab

theorem string_append_ne_self (s t : String) (ht : t.length ≠ 0) : s ++ t ≠ s := by
  intro h
  have h2 := congrArg String.length h
  rw [String.length_append] at h2
  omega

theorem openPopup_args (urlCtor : String → Option KLab.URLRec)
    (windowOpen : OpenArgs → Option Window) (config : KLab.PopupConfig) (args : OpenArgs)
    (h : (KLab.openPopup urlCtor windowOpen config).2 = some args) :
    args = KLab.openArgsOf config := by
  unfold KLab.openPopup at h
  split at h
  · simp at h
  · split at h
    · simp at h
    · split at h
      · simp at h
        exact h.symm
      · split at h <;>
          (simp at h; exact h.symm)

/-- A host URL constructor used by witness theorems: it throws (returns
`none`) exactly on the string "bad". -/
def urlCtorSample : String → Option KLab.URLRec :=
  fun s => if s = "bad" then none else some { href := s }

/-- A host `window.open` used by witness theorems: it always returns an
open (not closed) window. -/
def windowOpenSample : OpenArgs → Option Window :=
  fun _ => some { closed := some false }

/-- A concrete window used by witness theorems. -/
def sampleWindow : Window := { closed := some false }

/-- The popup config the modern `commonPopup` builds for the tuple used by
witness theorems. -/
def sampleConfig : KLab.PopupConfig :=
  { url := some "page.html", width := some 400, height := some 300,
    showTools := some false, name := some "" }

/-- C10: `isValidUrl` is total and swallows the URL constructor's
exception: for every host constructor behaviour and every string it
returns a boolean that is `true` exactly when `new URL(url, origin)`
succeeds and `false` exactly when the constructor throws. -/
theorem spec_C10_isValidUrl_total (urlCtor : String → Option KLab.URLRec) (url : String) :
    (KLab.isValidUrl urlCtor url = true ↔ (urlCtor url).isSome = true)
    ∧ (KLab.isValidUrl urlCtor url = false ↔ urlCtor url = none) := by
  cases h : urlCtor url with
  | none => simp [KLab.isValidUrl, h]
  | some u => simp [KLab.isValidUrl, h]

/-- C9: `openPopup` returns null with no `window.open` call when url,
width or height is falsy, or when the URL does not parse; when all three
are truthy and the URL is valid, `window.open` is invoked — exactly once,
since the embedded function has a single call site, recorded in the second
component. -/
theorem spec_C9_openPopup_guards (urlCtor : String → Option KLab.URLRec)
    (windowOpen : OpenArgs → Option Window) (config : KLab.PopupConfig) :
    ((jsFalsyStr config.url || jsFalsyInt config.width || jsFalsyInt config.height) = true →
      KLab.openPopup urlCtor windowOpen config = (none, none))
    ∧ ((jsFalsyStr config.url || jsFalsyInt config.width || jsFalsyInt config.height) = false →
        KLab.isValidUrl urlCtor (config.url.getD "") = false →
        KLab.openPopup urlCtor windowOpen config = (none, none))
    ∧ ((jsFalsyStr config.url || jsFalsyInt config.width || jsFalsyInt config.height) = false →
        KLab.isValidUrl urlCtor (config.url.getD "") = true →
        (KLab.openPopup urlCtor windowOpen config).2 = some (KLab.openArgsOf config)) := by
  refine ⟨fun h1 => ?_, fun h1 h2 => ?_, fun h1 h2 => ?_⟩
  · unfold KLab.openPopup
    simp [h1]
  · unfold KLab.openPopup
    simp [h1, h2]
  · unfold KLab.openPopup
    simp only [h1, h2, Bool.false_eq_true, if_false, Bool.not_true, Bool.false_eq_true]
    split
    · rfl
    · split <;> rfl

/-- Witness for C9: a falsy url, an invalid url and a fully valid config,
each at concrete values. -/
theorem spec_C9_openPopup_guards_witness :
    KLab.openPopup urlCtorSample windowOpenSample
        { url := some "", width := some 800, height := some 600 } = (none, none)
    ∧ KLab.openPopup urlCtorSample windowOpenSample
        { url := some "bad", width := some 800, height := some 600 } = (none, none)
    ∧ (KLab.openPopup urlCtorSample windowOpenSample
        { url := some "page.html", width := some 800, height := some 600 }).2
        = some (KLab.openArgsOf { url := some "page.html", width := some 800, height := some 600 }) := by
  have h1 := spec_C9_openPopup_guards urlCtorSample windowOpenSample
    { url := some "", width := some 800, height := some 600 }
  have h2 := spec_C9_openPopup_guards urlCtorSample windowOpenSample
    { url := some "bad", width := some 800, height := some 600 }
  have h3 := spec_C9_openPopup_guards urlCtorSample windowOpenSample
    { url := some "page.html", width := some 800, height := some 600 }
  exact ⟨h1.1 (by decide), h2.2.1 (by decide) (by decide), h3.2.2 (by decide) (by decide)⟩

/-- C7: the legacy `commonPopup` assigns the module-level `popupWindow`
handle on every call — in particular, whenever `window.open` returns a
window the global holds that window afterwards, and whenever the opened
value differs from the stored one the module environment is mutated;
the modernized `openPopup` takes no module environment at all (its type
has no `BrowserGlobals`) and instead returns the opened window to the
caller. -/
theorem spec_C7_no_global_handle (windowOpen : OpenArgs → Option Window) (g : BrowserGlobals)
    (url : Option String) (width height : Option Int) (toolsInd : Int) (name : Option String)
    (urlCtor : String → Option KLab.URLRec) (config : KLab.PopupConfig) (w : Window) :
    ((Legacy.commonPopup windowOpen g url width height toolsInd name).1.popupWindow
        = windowOpen (Legacy.legacyArgsOf url width height toolsInd name))
    ∧ (windowOpen (Legacy.legacyArgsOf url width height toolsInd name) = some w →
        (Legacy.commonPopup windowOpen g url width height toolsInd name).1.popupWindow = some w)
    ∧ (g.popupWindow ≠ windowOpen (Legacy.legacyArgsOf url width height toolsInd name) →
        (Legacy.commonPopup windowOpen g url width height toolsInd name).1 ≠ g)
    ∧ ((jsFalsyStr config.url || jsFalsyInt config.width || jsFalsyInt config.height) = false →
        KLab.isValidUrl urlCtor (config.url.getD "") = true →
        w.closed = some false →
        (KLab.openPopup urlCtor (fun _ => some w) config).1 = some w) := by
  refine ⟨rfl, fun h => ?_, fun hne heq => ?_, fun h1 h2 h3 => ?_⟩
  · rw [show (Legacy.commonPopup windowOpen g url width height toolsInd name).1.popupWindow
        = windowOpen (Legacy.legacyArgsOf url width height toolsInd name) from rfl, h]
  · apply hne
    rw [← heq]
    exact rfl
  · unfold KLab.openPopup
    simp [h1, h2, h3]

/-- Witness for C7 at a concrete environment, tuple, window and config. -/
theorem spec_C7_no_global_handle_witness :
    ((Legacy.commonPopup windowOpenSample ⟨none⟩ (some "page.html") (some 400) (some 300) 0 none).1.popupWindow
        = windowOpenSample (Legacy.legacyArgsOf (some "page.html") (some 400) (some 300) 0 none))
    ∧ (Legacy.commonPopup windowOpenSample ⟨none⟩ (some "page.html") (some 400) (some 300) 0 none).1.popupWindow
        = some sampleWindow
    ∧ (Legacy.commonPopup windowOpenSample ⟨none⟩ (some "page.html") (some 400) (some 300) 0 none).1
        ≠ (⟨none⟩ : BrowserGlobals)
    ∧ (KLab.openPopup urlCtorSample (fun _ => some sampleWindow) sampleConfig).1
        = some sampleWindow := by
  have h := spec_C7_no_global_handle windowOpenSample ⟨none⟩ (some "page.html") (some 400)
    (some 300) 0 none urlCtorSample sampleConfig sampleWindow
  exact ⟨h.1, h.2.1 (by decide), h.2.2.1 (by decide), h.2.2.2 (by decide) (by decide) (by decide)⟩

theorem modernOptions_eq_iff (width height : Int) (toolsInd : Int) :
    KLab.modernOptions width height (decide (toolsInd ≠ 1))
        = KLab.modernBaseOptions width height ++ KLab.modernRestrictedOptions
      ↔ toolsInd = 1 := by
  by_cases ht : toolsInd = 1
  · simp [KLab.modernOptions, ht]
  · have hd : decide (toolsInd ≠ 1) = true := by simp [ht]
    unfold KLab.modernOptions
    rw [hd]
    simp only [Bool.not_true, Bool.false_eq_true, if_false]
    constructor
    · intro hc
      exact absurd hc.symm (string_append_ne_self _ _ (by decide))
    · intro hc
      exact absurd hc ht

theorem legacyOptions_eq_iff (width height : Option Int) (toolsInd : Int) :
    Legacy.legacyOptions width height toolsInd
        = Legacy.legacyBaseOptions width height ++ Legacy.legacyRestrictedOptions
      ↔ toolsInd = 1 := by
  by_cases ht : toolsInd = 1
  · simp [Legacy.legacyOptions, ht]
  · unfold Legacy.legacyOptions
    rw [if_neg ht]
    constructor
    · intro hc
      exact absurd hc.symm (string_append_ne_self _ _ (by decide))
    · intro hc
      exact absurd hc ht

/-- C8: whenever the modernized `commonPopup` reaches its `window.open`
call, the options string carries the restricted features (appended block
disabling menubar, toolbar, status, resizable, scrollbars) exactly when
`toolsInd = 1`; the legacy `commonPopup` appends its restricted-features
block under exactly the same condition; and both versions replace a falsy
name argument by the empty string before `window.open` is called. -/
theorem spec_C8_restricted_iff (urlCtor : String → Option KLab.URLRec)
    (windowOpen : OpenArgs → Option Window) (g : BrowserGlobals)
    (url : Option String) (width height : Option Int) (toolsInd : Int) (name : Option String) :
    (∀ args : OpenArgs,
        (KLab.commonPopup urlCtor windowOpen url width height toolsInd name).2 = some args →
        (args.options
            = KLab.modernBaseOptions (width.getD 0) (height.getD 0) ++ KLab.modernRestrictedOptions
          ↔ toolsInd = 1)
        ∧ args.name = KLab.jsOrEmpty name)
    ∧ ((Legacy.commonPopup windowOpen g url width height toolsInd name).2.options
          = Legacy.legacyBaseOptions width height ++ Legacy.legacyRestrictedOptions
        ↔ toolsInd = 1)
    ∧ (Legacy.commonPopup windowOpen g url width height toolsInd name).2.name
        = Legacy.legacyName name
    ∧ (jsFalsyStr name = true → KLab.jsOrEmpty name = "" ∧ Legacy.legacyName name = "") := by
  refine ⟨fun args hargs => ?_, ?_, rfl, fun hf => ?_⟩
  · have he := openPopup_args urlCtor windowOpen _ args hargs
    subst he
    exact ⟨modernOptions_eq_iff (width.getD 0) (height.getD 0) toolsInd, rfl⟩
  · exact legacyOptions_eq_iff width height toolsInd
  · unfold KLab.jsOrEmpty Legacy.legacyName
    rw [hf]
    exact ⟨rfl, rfl⟩

/-- Witness for C8 at a concrete tuple with `toolsInd = 1` and an
undefined name. -/
theorem spec_C8_restricted_iff_witness :
    ((KLab.openArgsOf sampleConfig).options
        = KLab.modernBaseOptions 400 300 ++ KLab.modernRestrictedOptions ↔ (1 : Int) = 1)
    ∧ (KLab.openArgsOf sampleConfig).name = KLab.jsOrEmpty none
    ∧ ((Legacy.commonPopup windowOpenSample ⟨none⟩ (some "page.html") (some 400) (some 300) 1 none).2.options
        = Legacy.legacyBaseOptions (some 400) (some 300) ++ Legacy.legacyRestrictedOptions
      ↔ (1 : Int) = 1)
    ∧ (KLab.jsOrEmpty none = "" ∧ Legacy.legacyName none = "") := by
  have h := spec_C8_restricted_iff urlCtorSample windowOpenSample ⟨none⟩ (some "page.html")
    (some 400) (some 300) 1 none
  have h1 := h.1 (KLab.openArgsOf sampleConfig) (by decide)
  exact ⟨h1.1, h1.2, h.2.1, h.2.2.2 (by rfl)⟩

end KlabWeb
